import Mathlib

/-!
Verification development for the EPARK dental RPA system.

This file gives a shallow embedding of the pure decision logic of the
repository's session manager (`src/lib/BrowserSessionManager.ts`) and
appointment workflow engine (`src/pages/AppointPage.ts`), and proves the
spec's testable properties about it.

Modelling conventions:
* JavaScript strings are Lean `String`; `text.includes(pat)` is `strIncludes`.
* HHMM clock values reach the logic through `parseInt` of four-digit
  attribute strings, so they are modelled directly as `Nat` numerals.
* Calendar dates in the slot-discovery pipeline are modelled as abstract
  day numbers (`Nat`): dayjs parsing/formatting between `YYYYMMDD` strings,
  ISO `YYYY-MM-DD` strings and date objects is equality- and
  order-preserving on the well-formed dates that flow through the code, so
  every comparison in the source translates to the same comparison on day
  numbers.  In the reservation-lookup pipeline dates stay as strings,
  because there they are only used for string matching.
* Effects (network responses, thrown errors, the DOM contents after a
  render) enter the model as explicit environment parameters.
-/

/-- The JS `text.startsWith(pat)` on character lists: `leadsWith pat text`
is true when `pat` is an initial segment of `text`. -/
def leadsWith : List Char → List Char → Bool
  | [], _ => true
  | _ :: _, [] => false
  | p :: ps, c :: cs => p == c && leadsWith ps cs

/-- Occurrence of `pat` as a contiguous subsequence of the text, checked at
every start position; mirrors JS `String.prototype.includes`. -/
def containsSeq (pat : List Char) : List Char → Bool
  | [] => leadsWith pat []
  | c :: cs => leadsWith pat (c :: cs) || containsSeq pat cs

/-- JS `text.includes(pat)`. -/
def strIncludes (text pat : String) : Bool :=
  containsSeq pat.data text.data

/-- Session lifecycle states of `BrowserSessionManager`
(`src/lib/BrowserSessionManager.ts`, `SessionState`). -/
inductive SessionState
  | uninitialized
  | starting
  | loggingIn
  | ready
  | busy
  | recovering
  | error
  | closed
deriving DecidableEq, Repr

/-- `BrowserSessionManager.isBrowserError` (lines 314-323): an error is
treated as a browser/session loss exactly when its message contains one of
five fixed markers. -/
def isBrowserError (message : String) : Bool :=
  strIncludes message "Target closed" ||
  strIncludes message "Browser closed" ||
  strIncludes message "Protocol error" ||
  strIncludes message "Session closed" ||
  strIncludes message "Connection closed"

/-- The message of the rejection produced by the timeout race inside
`withPage` (line 290): `Page operation timed out after ${timeoutMs}ms`. -/
def timeoutMessage (timeoutMs : Nat) : String :=
  "Page operation timed out after " ++ toString timeoutMs ++ "ms"

/-- `BrowserSessionManager.releasePage` (lines 261-266): only a `busy`
session goes back to `ready`; any other state is left untouched. -/
def releasePage (st : SessionState) : SessionState :=
  if st = SessionState.busy then SessionState.ready else st

/-- Final state of `recoverInternal` (lines 189-219): a no-op when already
`recovering`; otherwise teardown + relaunch + re-login ends in `ready` when
the re-login succeeds and in `error` when it throws. -/
def recoverInternalState (st : SessionState) (loginSucceeds : Bool) : SessionState :=
  if st = SessionState.recovering then st
  else if loginSucceeds then SessionState.ready else SessionState.error

/-- State observed by the next mutex acquirer after `withPage` finishes
(lines 277-309), together with whether a recovery was attempted.  The
argument is `none` when the raced operation returned in time and
`some msg` when it rejected with an error whose message is `msg` (the
timeout rejection carries `timeoutMessage timeoutMs`).  At that point the
session is `busy` (set by `acquirePage`); the catch block recovers only
when `isBrowserError` matches, and the finally block runs `releasePage`. -/
def withPageFinalState (outcome : Option String) (loginSucceeds : Bool) :
    SessionState × Bool :=
  match outcome with
  | none => (releasePage SessionState.busy, false)
  | some msg =>
    if isBrowserError msg then
      (releasePage (recoverInternalState SessionState.busy loginSucceeds), true)
    else
      (releasePage SessionState.busy, false)

/-- An existing reservation element read from the rendered schedule
(`extractSlotsFromCurrentView`, lines 234-242): the `data-date`,
`data-start`, `data-end`, `data-staff` attributes.  Times are the HHMM
numerals produced by `parseInt`; the date is a day number (see header). -/
structure ReservationMark where
  date : Nat
  start : Nat
  «end» : Nat
  staff : String
deriving DecidableEq, Repr

/-- The predicate tested for one reservation inside `isSlotReserved`
(lines 251-262): same date and staff, and half-open interval overlap
`slotStart < reserveEnd && slotEnd > reserveStart`. -/
def overlapsReservation (date : Nat) (slotStart slotEnd : Nat) (staffId : String)
    (r : ReservationMark) : Bool :=
  if r.date != date || r.staff != staffId then false
  else decide (slotStart < r.«end») && decide (slotEnd > r.start)

/-- `isSlotReserved` (lines 251-262): JS `reservations.some(...)`. -/
def isSlotReserved (reservations : List ReservationMark) (date : Nat)
    (slotStart slotEnd : Nat) (staffId : String) : Bool :=
  reservations.any (overlapsReservation date slotStart slotEnd staffId)

/-- A working-hours range parsed by `getShiftRanges` (lines 354-376), as
HHMM numerals. -/
structure ShiftRange where
  start : Nat
  «end» : Nat
deriving DecidableEq, Repr

/-- The `for (const shift of shiftRanges)` loop inside `adjustToShift`
(lines 280-293): the first shift range that half-open-overlaps the cell
yields the clipped interval; if none does, the cell is dropped. -/
def adjustLoop (slotStart slotEnd : Nat) : List ShiftRange → Option (Nat × Nat)
  | [] => none
  | shift :: rest =>
    if decide (slotStart < shift.«end») && decide (slotEnd > shift.start) then
      some (max slotStart shift.start, min slotEnd shift.«end»)
    else adjustLoop slotStart slotEnd rest

/-- `adjustToShift` (lines 270-294): with no shift information the cell
passes through unclipped, otherwise the first overlapping shift range clips
it and a cell overlapping no range is discarded (`null`). -/
def adjustToShift (shiftRanges : List ShiftRange) (slotStart slotEnd : Nat) :
    Option (Nat × Nat) :=
  if shiftRanges.isEmpty then some (slotStart, slotEnd)
  else adjustLoop slotStart slotEnd shiftRanges

/-- One entry of the staff map (lines 222-228): `data-staffid` and
`data-staffname`. -/
structure Staff where
  id : String
  name : String
deriving DecidableEq, Repr

/-- An active schedule column (lines 297-305).  Each attribute is `none`
when `getAttribute` returns `null` or the empty string (both falsy in the
`if (!dateAttr || ...) continue` guard). -/
structure ColumnCell where
  date : Option Nat
  start : Option Nat
  «end» : Option Nat
  staff : Option String
deriving DecidableEq, Repr

/-- `SlotInfo` (lines 36-47).  `time` is the adjusted start (rendered as
`HH:MM` in the source); `duration_min` is computed with JS number
subtraction, hence `Int`. -/
structure SlotInfo where
  date : Nat
  time : Nat
  duration_min : Int
  stock : Nat
  resource_name : String
deriving DecidableEq, Repr

/-- Minutes past midnight of an HHMM numeral, as computed at lines 330-332
after formatting the adjusted value back to `HH:MM`. -/
def minutesOfHHMM (t : Nat) : Int :=
  ((t / 100 : Nat) : Int) * 60 + ((t % 100 : Nat) : Int)

/-- The `staff?.name || ('スタッフ' + staffId)` fallback of lines 322-323:
a missing staff entry, or one with an empty (falsy) name, falls back to the
generated label. -/
def resourceNameOf (staffMap : List Staff) (staffId : String) : String :=
  match staffMap.find? (fun s => s.id == staffId) with
  | some s => if s.name = "" then "スタッフ" ++ staffId else s.name
  | none => "スタッフ" ++ staffId

/-- Body of the `for (const column of activeColumns)` loop of
`extractSlotsFromCurrentView` (lines 299-344) for a single column:
`none` models `continue`, `some` models the pushed `SlotInfo`. -/
def extractSlot (dateFrom dateTo : Nat) (staffMap : List Staff)
    (shiftRanges : List ShiftRange) (reservations : List ReservationMark)
    (col : ColumnCell) : Option SlotInfo :=
  match col.date, col.start, col.«end», col.staff with
  | some d, some s, some e, some staffId =>
    if isSlotReserved reservations d s e staffId then none
    else
      match adjustToShift shiftRanges s e with
      | none => none
      | some (adjStart, adjEnd) =>
        if dateTo < d then none
        else if d < dateFrom then none
        else
          let durationMin := minutesOfHHMM adjEnd - minutesOfHHMM adjStart
          if durationMin ≤ 0 then none
          else some {
            date := d,
            time := adjStart,
            duration_min := durationMin,
            stock := 1,
            resource_name := resourceNameOf staffMap staffId }
  | _, _, _, _ => none

/-- Contents of the rendered schedule view backing one
`extractSlotsFromCurrentView` call: staff list, shift ranges, existing
reservations and active columns, in document order. -/
structure ViewData where
  staffMap : List Staff
  shiftRanges : List ShiftRange
  reservations : List ReservationMark
  columns : List ColumnCell

/-- `extractSlotsFromCurrentView` (lines 218-347) over one rendered view. -/
def extractSlotsFromCurrentView (dateFrom dateTo : Nat) (v : ViewData) :
    List SlotInfo :=
  v.columns.filterMap
    (extractSlot dateFrom dateTo v.staffMap v.shiftRanges v.reservations)

/-- `FETCH_DAYS` (line 54): days rendered per `Schedule.draw` call. -/
def FETCH_DAYS : Nat := 8

/-- The chunked `while` loop of `getAvailableSlots` (lines 186-207).
`render d` is the view shown after `drawSchedule d`.  The loop runs while
`currentDate ≤ endDate`, extracts slots for the window
`[currentDate, min (currentDate + FETCH_DAYS - 1) endDate]` and advances by
`FETCH_DAYS`.  `fuel` bounds the iteration count; since every iteration
advances the date by 8 days, `endDate + 1 - startDate` iterations always
suffice (see `fetchChunks_fuel_congr`), so the fuel never cuts the loop
short. -/
def fetchChunks (render : Nat → ViewData) (endDate : Nat) :
    Nat → Nat → List SlotInfo
  | 0, _ => []
  | fuel + 1, currentDate =>
    if currentDate ≤ endDate then
      let v := render currentDate
      let chunkEnd := currentDate + (FETCH_DAYS - 1)
      let effectiveEnd := min chunkEnd endDate
      extractSlotsFromCurrentView currentDate effectiveEnd v ++
        fetchChunks render endDate fuel (currentDate + FETCH_DAYS)
    else []

/-- `getAvailableSlots` (lines 174-210): chunked fetch from `dateFrom` to
`dateTo` over the views produced by `render`. -/
def getAvailableSlots (render : Nat → ViewData) (dateFrom dateTo : Nat) :
    List SlotInfo :=
  fetchChunks render dateTo (dateTo + 1 - dateFrom) dateFrom

/-- Reservation operations (`ReservationRequest['operation']`, the SDK type
extended with `delete` at lines 22-24). -/
inductive Operation
  | create
  | update
  | cancel
  | delete
deriving DecidableEq, Repr

/-- `ReservationResult.status` values. -/
inductive RStatus
  | success
  | conflict
  | failed
deriving DecidableEq, Repr

/-- A submitted `ReservationRequest` (lines 22-24 and the SDK base type):
the fields the workflow engine reads. -/
structure ReservationRequest where
  reservation_id : String
  operation : Operation
  date : String
  time : String
  duration_min : Option Nat
  customer_name : String
  customer_phone : String
  menu_name : Option String
  notes : Option String
deriving DecidableEq, Repr

/-- A `ReservationResult` (lines 29-31 and the SDK base type). -/
structure ReservationResult where
  reservation_id : String
  operation : Operation
  status : RStatus
  external_reservation_id : Option String
  error_code : Option String
  error_message : Option String
deriving DecidableEq, Repr

/-- JS `Array.prototype.join(', ')`. -/
def joinComma : List String → String
  | [] => ""
  | [s] => s
  | s :: rest => s ++ ", " ++ joinComma rest

/-- JSON body of the `registappoint` response (lines 666-670). -/
structure RegistResponse where
  result : Bool
  err_messages : Option (List String)
  alert_message : Option String
deriving DecidableEq, Repr

/-- Return value of `submitReservationForm` (lines 649-653). -/
structure SubmitResult where
  success : Bool
  errorCode : Option String
  errorMessage : Option String
deriving DecidableEq, Repr

/-- The falsy-string fallback chain
`json.err_messages?.join(', ') || json.alert_message || default`
(line 673 and lines 955, 1081): a missing field and an empty string both
fall through. -/
def fallbackMessage (primary : String) (secondary : Option String)
    (dflt : String) : String :=
  if primary ≠ "" then primary
  else
    match secondary with
    | some s => if s ≠ "" then s else dflt
    | none => dflt

/-- Error classification of `submitReservationForm` (lines 649-698): on
`result:false`, an `err_messages` entry containing 「他の予約が存在」 gives
`DUPLICATE_RESERVATION`; otherwise an `alert_message` containing
「勤務時間外」 gives `SLOT_NOT_AVAILABLE` (with a replaced message); every
other failure is `SYSTEM_ERROR`. -/
def submitReservationForm (resp : RegistResponse) : SubmitResult :=
  if !resp.result then
    let errorMessage :=
      fallbackMessage (joinComma (resp.err_messages.getD []))
        resp.alert_message "予約登録に失敗しました"
    if (resp.err_messages.getD []).any (fun msg => strIncludes msg "他の予約が存在") then
      { success := false, errorCode := some "DUPLICATE_RESERVATION",
        errorMessage := some errorMessage }
    else if (match resp.alert_message with
             | some a => strIncludes a "勤務時間外"
             | none => false) then
      { success := false, errorCode := some "SLOT_NOT_AVAILABLE",
        errorMessage := some "指定された時間帯に空きがありません" }
    else
      { success := false, errorCode := some "SYSTEM_ERROR",
        errorMessage := some errorMessage }
  else
    { success := true, errorCode := none, errorMessage := none }

/-- Effect environment for one `createReservation` call (lines 494-558):
either some UI step threw (caught at line 543), or the flow reached the
submit and got a `registappoint` response, with `foundId` the identifier
that `findReservationId` would read from the DOM on success. -/
inductive CreateEnv
  | throws (msg : String)
  | responds (resp : RegistResponse) (foundId : String)

/-- `createReservation` (lines 494-558): submit-failure results map
`DUPLICATE_RESERVATION` to status `conflict` and everything else to
`failed`; a thrown step yields a failed `SYSTEM_ERROR` result; success
carries the externally assigned id. -/
def createReservation (env : CreateEnv) (req : ReservationRequest) :
    ReservationResult :=
  match env with
  | .throws msg =>
    { reservation_id := req.reservation_id, operation := .create,
      status := .failed, external_reservation_id := none,
      error_code := some "SYSTEM_ERROR", error_message := some msg }
  | .responds resp foundId =>
    let submitResult := submitReservationForm resp
    if !submitResult.success then
      let status := if submitResult.errorCode = some "DUPLICATE_RESERVATION"
        then RStatus.conflict else RStatus.failed
      { reservation_id := req.reservation_id, operation := .create,
        status := status, external_reservation_id := none,
        error_code := submitResult.errorCode,
        error_message := submitResult.errorMessage }
    else
      { reservation_id := req.reservation_id, operation := .create,
        status := .success, external_reservation_id := some foundId,
        error_code := none, error_message := none }

/-- A reservation element considered by `findExistingReservation`
(lines 755-780): its `data-date`/`data-start` key, label text, and the
`data-id`/`data-staff`/`data-line`/`data-type` attributes. -/
structure ReserveElement where
  date : String
  start : String
  label : String
  id : String
  staff : String
  line : String
  type : String
deriving DecidableEq, Repr

/-- Whitespace characters matched by the JS `\s` class (the forms that
occur in names and labels here). -/
def isJsSpace (c : Char) : Bool :=
  c == ' ' || c == '\t' || c == '\n' || c == '\r' ||
  c == '\u000b' || c == '\u000c' || c == ' ' || c == '　'

/-- JS `s.replace(/\s+/g, '')` (line 749). -/
def stripSpaces (s : String) : String :=
  ⟨s.data.filter (fun c => !isJsSpace c)⟩

/-- JS `s.replace(/[-\s]/g, '')` (line 752). -/
def stripPhonePunct (s : String) : String :=
  ⟨s.data.filter (fun c => !(c == '-' || isJsSpace c))⟩

/-- JS `s.replace(/[\s/]/g, '')` (line 765). -/
def stripLabelNoise (s : String) : String :=
  ⟨s.data.filter (fun c => !(c == '/' || isJsSpace c))⟩

/-- `toYyyymmdd` (lines 148-150): for a well-formed `YYYY-MM-DD` input the
dayjs round-trip just drops the hyphens. -/
def toYyyymmdd (s : String) : String :=
  ⟨s.data.filter (fun c => c != '-')⟩

/-- `reservation.time.replace(':', '')` (line 746): JS `replace` with a
string pattern replaces only the first occurrence. -/
def removeFirstColon (s : String) : String :=
  match s.data.indexOf? ':' with
  | none => s
  | some i => ⟨s.data.take i ++ s.data.drop (i + 1)⟩

/-- The `(date, start)` key filter applied by the attribute selector at
lines 755-757. -/
def keyMatches (req : ReservationRequest) (el : ReserveElement) : Bool :=
  el.date == toYyyymmdd req.date && el.start == removeFirstColon req.time

/-- The label test of lines 764-769: the label with whitespace and slashes
removed must contain both the whitespace-stripped customer name and the
punctuation-stripped phone number as substrings. -/
def customerMatches (req : ReservationRequest) (el : ReserveElement) : Bool :=
  let normalizedLabel := stripLabelNoise el.label
  strIncludes normalizedLabel (stripSpaces req.customer_name) &&
  strIncludes normalizedLabel (stripPhonePunct req.customer_phone)

/-- The record returned by `findExistingReservation` (lines 734-741). -/
structure FoundReservation where
  appointId : String
  staffId : String
  lineNo : String
  lineType : String
  date : String
  start : String
deriving DecidableEq, Repr

/-- Data read from a matching element (lines 772-778). -/
def foundInfoOf (req : ReservationRequest) (el : ReserveElement) :
    FoundReservation :=
  { appointId := el.id, staffId := el.staff, lineNo := el.line,
    lineType := el.type, date := toYyyymmdd req.date,
    start := removeFirstColon req.time }

/-- `findExistingReservation` (lines 734-783): among the elements whose
`(data-date, data-start)` attributes equal the request's key, the first one
in document order whose label passes the customer test is returned. -/
def findExistingReservation (elements : List ReserveElement)
    (req : ReservationRequest) : Option FoundReservation :=
  ((elements.filter (keyMatches req)).find? (customerMatches req)).map
    (foundInfoOf req)

/-- The early-return result used by both `cancelReservation`
(lines 849-857) and `deleteReservation` (lines 987-995) when no existing
reservation matches. -/
def notFoundResult (req : ReservationRequest) (op : Operation) :
    ReservationResult :=
  { reservation_id := req.reservation_id, operation := op,
    status := .failed, external_reservation_id := none,
    error_code := some "RESERVATION_NOT_FOUND",
    error_message := some "指定された予約が見つかりません" }

/-- JSON body of the `cancelappoint` / `deleteappoint` responses
(lines 949-952 and 1074-1078). -/
structure MutResponse where
  result : Bool
  messages : Option (List String)
deriving DecidableEq, Repr

/-- Result classification of `submitCancelForm` (lines 954-968). -/
def submitCancelOutcome (resp : MutResponse) : SubmitResult :=
  if !resp.result then
    { success := false, errorCode := some "SYSTEM_ERROR",
      errorMessage := some (fallbackMessage (joinComma (resp.messages.getD []))
        none "予約キャンセルに失敗しました") }
  else
    { success := true, errorCode := none, errorMessage := none }

/-- Result classification of `submitDeleteForm` (lines 1080-1094). -/
def submitDeleteOutcome (resp : MutResponse) : SubmitResult :=
  if !resp.result then
    { success := false, errorCode := some "SYSTEM_ERROR",
      errorMessage := some (fallbackMessage (joinComma (resp.messages.getD []))
        none "予約削除に失敗しました") }
  else
    { success := true, errorCode := none, errorMessage := none }

/-- Effect environment for one cancel or delete call: either a UI step
threw, or the rendered schedule contained `elements` and the confirming
network exchange answered `resp`. -/
inductive MutEnv
  | throws (msg : String)
  | proceed (elements : List ReserveElement) (resp : MutResponse)

/-- `cancelReservation` (lines 839-904).  The edit popup
(`openEditForm`, line 860) is opened only after the lookup succeeds: the
not-found branch returns before it. -/
def cancelReservation (env : MutEnv) (req : ReservationRequest) :
    ReservationResult :=
  match env with
  | .throws msg =>
    { reservation_id := req.reservation_id, operation := .cancel,
      status := .failed, external_reservation_id := none,
      error_code := some "SYSTEM_ERROR", error_message := some msg }
  | .proceed elements resp =>
    match findExistingReservation elements req with
    | none => notFoundResult req .cancel
    | some info =>
      let cancelResult := submitCancelOutcome resp
      if !cancelResult.success then
        { reservation_id := req.reservation_id, operation := .cancel,
          status := .failed, external_reservation_id := none,
          error_code := some (cancelResult.errorCode.getD "SYSTEM_ERROR"),
          error_message := cancelResult.errorMessage }
      else
        { reservation_id := req.reservation_id, operation := .cancel,
          status := .success,
          external_reservation_id := some info.appointId,
          error_code := none, error_message := none }

/-- `deleteReservation` (lines 977-1042), same shape as cancel. -/
def deleteReservation (env : MutEnv) (req : ReservationRequest) :
    ReservationResult :=
  match env with
  | .throws msg =>
    { reservation_id := req.reservation_id, operation := .delete,
      status := .failed, external_reservation_id := none,
      error_code := some "SYSTEM_ERROR", error_message := some msg }
  | .proceed elements resp =>
    match findExistingReservation elements req with
    | none => notFoundResult req .delete
    | some info =>
      let deleteResult := submitDeleteOutcome resp
      if !deleteResult.success then
        { reservation_id := req.reservation_id, operation := .delete,
          status := .failed, external_reservation_id := none,
          error_code := some (deleteResult.errorCode.getD "SYSTEM_ERROR"),
          error_message := deleteResult.errorMessage }
      else
        { reservation_id := req.reservation_id, operation := .delete,
          status := .success,
          external_reservation_id := some info.appointId,
          error_code := none, error_message := none }

/-- The two cancellation-reason radio buttons of the vendor dialog
(lines 926-933): `#rdoReasonNoContact` and `#rdoReasonContact`. -/
inductive CancelReason
  | noContact
  | contact
deriving DecidableEq, Repr

/-- Reason selection in `submitCancelForm` (lines 926-933):
`reservationDate` and `today` are `YYYYMMDD` strings, `today` being the
current date in the `Asia/Tokyo` zone. -/
def selectCancelReason (reservationDate today : String) : CancelReason :=
  if reservationDate = today then .noContact else .contact

/-- Per-request effect environments for one `processReservations` batch. -/
structure OpEnv where
  createEnv : CreateEnv
  cancelEnv : MutEnv
  deleteEnv : MutEnv

/-- The `for` loop of `processReservations` (lines 462-484): `i` is the
loop index (`env i` supplies the effects of the i-th iteration).  Note the
dispatch has branches for `create`, `cancel` and `delete` only; a request
with any other operation falls through and pushes no result. -/
def processLoop (env : Nat → OpEnv) : Nat → List ReservationRequest →
    List ReservationResult
  | _, [] => []
  | i, req :: rest =>
    match req.operation with
    | .create => createReservation (env i).createEnv req :: processLoop env (i + 1) rest
    | .cancel => cancelReservation (env i).cancelEnv req :: processLoop env (i + 1) rest
    | .delete => deleteReservation (env i).deleteEnv req :: processLoop env (i + 1) rest
    | .update => processLoop env (i + 1) rest

/-- `processReservations` (lines 462-484). -/
def processReservations (env : Nat → OpEnv) (reservations : List ReservationRequest) :
    List ReservationResult :=
  processLoop env 0 reservations

/-! ## Properties -/

/-- C1, counterexample: the rejection message of the `withPage` timeout
race (`Page operation timed out after 600000ms`, the default budget)
matches none of the `isBrowserError` markers, so the catch block performs
no recovery for a timeout: the session is simply released back to `ready`
with the browser never torn down or re-authenticated (second component
`false` = no recovery attempted). -/
theorem withPage_timeout_not_recovered_cex :
    isBrowserError (timeoutMessage 600000) = false ∧
    withPageFinalState (some (timeoutMessage 600000)) true =
      (SessionState.ready, false) := by
  constructor
  · decide
  · decide

/-- C1, amended: when the operation fails (timeout included), the next
mutex acquirer observes `ready` or `error`, never `busy` or `recovering`;
but recovery (teardown + re-authentication) before the release happens
exactly when the failure message matches a browser-error marker, and the
timeout message (default budget) matches none, so a timed-out call
releases a non-recovered session in state `ready`. -/
theorem withPage_error_path_amended :
    ∀ (msg : String) (loginSucceeds : Bool),
    ((withPageFinalState (some msg) loginSucceeds).1 = SessionState.ready ∨
      (withPageFinalState (some msg) loginSucceeds).1 = SessionState.error) ∧
    (withPageFinalState (some msg) loginSucceeds).2 = isBrowserError msg ∧
    withPageFinalState (some (timeoutMessage 600000)) loginSucceeds =
      (SessionState.ready, false) := by
  intro msg loginSucceeds
  have hT : isBrowserError (timeoutMessage 600000) = false := by decide
  rcases Bool.eq_false_or_eq_true (isBrowserError msg) with h | h <;>
    cases loginSucceeds <;>
      simp [withPageFinalState, releasePage, recoverInternalState, h, hT]

/-- C2: one reservation blocks a candidate cell exactly when the dates and
staff ids agree and the half-open intervals overlap
(`cellStart < reservedEnd` and `cellEnd > reservedStart`); exact boundary
contact (cell ends where the reservation starts, or starts where it ends)
is never an overlap. -/
theorem overlapsReservation_halfopen_iff :
    ∀ (date slotStart slotEnd : Nat) (staffId : String) (r : ReservationMark),
    (overlapsReservation date slotStart slotEnd staffId r = true ↔
      (r.date = date ∧ r.staff = staffId ∧ slotStart < r.«end» ∧ slotEnd > r.start)) ∧
    (r.start = slotEnd → overlapsReservation date slotStart slotEnd staffId r = false) ∧
    (r.«end» = slotStart → overlapsReservation date slotStart slotEnd staffId r = false) := by
  intro date slotStart slotEnd staffId r
  refine ⟨?_, ?_, ?_⟩
  · by_cases h1 : r.date = date <;> by_cases h2 : r.staff = staffId <;>
      simp [overlapsReservation, h1, h2]
  · intro h
    unfold overlapsReservation
    split
    · rfl
    · simp [h]
  · intro h
    unfold overlapsReservation
    split
    · rfl
    · simp [h]

/-- Witness for C2 at a boundary cell: a reservation starting exactly at
the cell end (and ending exactly at the cell start) does not overlap. -/
theorem overlapsReservation_halfopen_iff_witness :
    overlapsReservation 1 900 1000 "1" ⟨1, 1000, 900, "1"⟩ = false ∧
    overlapsReservation 1 900 1000 "1" ⟨1, 1000, 900, "1"⟩ = false :=
  ⟨(overlapsReservation_halfopen_iff 1 900 1000 "1" ⟨1, 1000, 900, "1"⟩).2.1 rfl,
   (overlapsReservation_halfopen_iff 1 900 1000 "1" ⟨1, 1000, 900, "1"⟩).2.2 rfl⟩

/-- The shift-search loop finds no clip when no range overlaps. -/
lemma adjustLoop_eq_none {slotStart slotEnd : Nat} :
    ∀ {l : List ShiftRange},
    (∀ sh ∈ l, ¬(slotStart < sh.«end» ∧ slotEnd > sh.start)) →
    adjustLoop slotStart slotEnd l = none := by
  intro l
  induction l with
  | nil => intro _; rfl
  | cons shift rest ih =>
    intro h
    have hhead := h shift (by simp)
    have hcond : (decide (slotStart < shift.«end») && decide (slotEnd > shift.start)) = false := by
      simp only [Bool.and_eq_false_iff, decide_eq_false_iff_not]
      tauto
    simp only [adjustLoop, hcond, Bool.false_eq_true, if_false]
    exact ih (fun sh hsh => h sh (by simp [hsh]))

/-- The shift-search loop clips against the first overlapping range. -/
lemma adjustLoop_eq_some {slotStart slotEnd : Nat} :
    ∀ {l : List ShiftRange},
    (∃ sh ∈ l, slotStart < sh.«end» ∧ slotEnd > sh.start) →
    ∃ sh ∈ l, slotStart < sh.«end» ∧ slotEnd > sh.start ∧
      adjustLoop slotStart slotEnd l =
        some (max slotStart sh.start, min slotEnd sh.«end») := by
  intro l
  induction l with
  | nil => intro h; simp at h
  | cons shift rest ih =>
    intro h
    by_cases hhead : slotStart < shift.«end» ∧ slotEnd > shift.start
    · refine ⟨shift, by simp, hhead.1, hhead.2, ?_⟩
      have hcond : (decide (slotStart < shift.«end») && decide (slotEnd > shift.start)) = true := by
        simp [hhead.1, hhead.2]
      simp [adjustLoop, hcond]
    · have hrest : ∃ sh ∈ rest, slotStart < sh.«end» ∧ slotEnd > sh.start := by
        rcases h with ⟨sh, hmem, hov⟩
        rcases List.mem_cons.mp hmem with rfl | hmem2
        · exact absurd hov hhead
        · exact ⟨sh, hmem2, hov⟩
      rcases ih hrest with ⟨sh, hmem, h1, h2, heq⟩
      refine ⟨sh, by simp [hmem], h1, h2, ?_⟩
      have hcond : (decide (slotStart < shift.«end») && decide (slotEnd > shift.start)) = false := by
        simp only [Bool.and_eq_false_iff, decide_eq_false_iff_not]
        tauto
      simp only [adjustLoop, hcond, Bool.false_eq_true, if_false]
      exact heq

/-- C3: with no shift information the cell passes through unclipped; a
cell half-open-overlapping some shift range is clipped to
`[max(cellStart, shiftStart), min(cellEnd, shiftEnd)]` for an overlapping
range; a cell overlapping no range (when ranges exist) is discarded. -/
theorem adjustToShift_spec :
    ∀ (shiftRanges : List ShiftRange) (slotStart slotEnd : Nat),
    (shiftRanges = [] →
      adjustToShift shiftRanges slotStart slotEnd = some (slotStart, slotEnd)) ∧
    ((∃ sh ∈ shiftRanges, slotStart < sh.«end» ∧ slotEnd > sh.start) →
      ∃ sh ∈ shiftRanges, slotStart < sh.«end» ∧ slotEnd > sh.start ∧
        adjustToShift shiftRanges slotStart slotEnd =
          some (max slotStart sh.start, min slotEnd sh.«end»)) ∧
    (shiftRanges ≠ [] →
      (∀ sh ∈ shiftRanges, ¬(slotStart < sh.«end» ∧ slotEnd > sh.start)) →
      adjustToShift shiftRanges slotStart slotEnd = none) := by
  intro shiftRanges slotStart slotEnd
  refine ⟨?_, ?_, ?_⟩
  · intro h
    subst h
    rfl
  · intro h
    have hne : ¬shiftRanges.isEmpty = true := by
      rcases h with ⟨sh, hmem, _⟩
      cases shiftRanges with
      | nil => simp at hmem
      | cons a l => simp
    rcases adjustLoop_eq_some h with ⟨sh, hmem, h1, h2, heq⟩
    exact ⟨sh, hmem, h1, h2, by simp [adjustToShift, hne, heq]⟩
  · intro hne h
    have hne2 : ¬shiftRanges.isEmpty = true := by
      cases shiftRanges with
      | nil => exact absurd rfl hne
      | cons a l => simp
    simp [adjustToShift, hne2, adjustLoop_eq_none h]

/-- Witness for C3: empty ranges pass through, an overlapping range clips,
and a fully-outside cell is dropped. -/
theorem adjustToShift_spec_witness :
    adjustToShift [] 900 930 = some (900, 930) ∧
    (∃ sh ∈ [ShiftRange.mk 900 1220], 850 < sh.«end» ∧ 930 > sh.start ∧
      adjustToShift [ShiftRange.mk 900 1220] 850 930 =
        some (max 850 sh.start, min 930 sh.«end»)) ∧
    adjustToShift [ShiftRange.mk 900 1220] 700 800 = none :=
  ⟨(adjustToShift_spec [] 900 930).1 rfl,
   (adjustToShift_spec [ShiftRange.mk 900 1220] 850 930).2.1 (by decide),
   (adjustToShift_spec [ShiftRange.mk 900 1220] 700 800).2.2 (by decide) (by decide)⟩

/-- Any slot emitted for one column respects the window bounds handed to
the extraction, has positive clipped duration, and capacity 1. -/
lemma extractSlot_sound {dateFrom dateTo : Nat} {staffMap : List Staff}
    {shiftRanges : List ShiftRange} {reservations : List ReservationMark}
    {col : ColumnCell} {slot : SlotInfo}
    (h : extractSlot dateFrom dateTo staffMap shiftRanges reservations col = some slot) :
    dateFrom ≤ slot.date ∧ slot.date ≤ dateTo ∧
      0 < slot.duration_min ∧ slot.stock = 1 := by
  rcases col with ⟨od, os, oe, ost⟩
  cases od <;> cases os <;> cases oe <;> cases ost <;>
    simp only [extractSlot] at h <;>
    try exact Option.noConfusion h
  case some.some.some.some d s e staffId =>
    split at h
    · exact absurd h (by simp)
    · split at h
      · exact absurd h (by simp)
      · split at h
        · exact absurd h (by simp)
        · split at h
          · exact absurd h (by simp)
          · split at h
            · exact absurd h (by simp)
            · rcases Option.some.inj h with rfl
              refine ⟨?_, ?_, ?_, rfl⟩ <;> dsimp only <;> omega

/-- Any slot extracted from one rendered view respects the window bounds. -/
lemma extractSlots_view_sound {dateFrom dateTo : Nat} {v : ViewData}
    {slot : SlotInfo}
    (h : slot ∈ extractSlotsFromCurrentView dateFrom dateTo v) :
    dateFrom ≤ slot.date ∧ slot.date ≤ dateTo ∧
      0 < slot.duration_min ∧ slot.stock = 1 := by
  rcases List.mem_filterMap.mp h with ⟨col, _, hcol⟩
  exact extractSlot_sound hcol

/-- Any slot produced by the chunked fetch loop lies between the current
cursor date and the overall end date. -/
lemma fetchChunks_sound {render : Nat → ViewData} {endDate : Nat} :
    ∀ (fuel currentDate : Nat) (slot : SlotInfo),
    slot ∈ fetchChunks render endDate fuel currentDate →
    currentDate ≤ slot.date ∧ slot.date ≤ endDate ∧
      0 < slot.duration_min ∧ slot.stock = 1 := by
  intro fuel
  induction fuel with
  | zero =>
    intro currentDate slot h
    simp [fetchChunks] at h
  | succ f ih =>
    intro currentDate slot h
    by_cases hc : currentDate ≤ endDate
    · simp only [fetchChunks, hc, if_true] at h
      rcases List.mem_append.mp h with h1 | h2
      · have hs := extractSlots_view_sound h1
        refine ⟨hs.1, ?_, hs.2.2⟩
        have := hs.2.1
        have hmin : min (currentDate + (FETCH_DAYS - 1)) endDate ≤ endDate :=
          min_le_right _ _
        omega
      · have hs := ih (currentDate + FETCH_DAYS) slot h2
        refine ⟨?_, hs.2⟩
        have := hs.1
        omega
    · simp only [fetchChunks, hc, if_false] at h
      simp at h

/-- C4: every slot returned by `getAvailableSlots` has its date inside
`[dateFrom, dateTo]` (edge-window results outside the range are filtered),
a strictly positive clipped duration, and stock exactly 1. -/
theorem getAvailableSlots_sound :
    ∀ (render : Nat → ViewData) (dateFrom dateTo : Nat) (slot : SlotInfo),
    slot ∈ getAvailableSlots render dateFrom dateTo →
    dateFrom ≤ slot.date ∧ slot.date ≤ dateTo ∧
      0 < slot.duration_min ∧ slot.stock = 1 := by
  intro render dateFrom dateTo slot h
  exact fetchChunks_sound (dateTo + 1 - dateFrom) dateFrom slot h

/-- Witness for C4: a single open cell on day 5 with no reservations and
no shift restriction yields a 30-minute, stock-1 slot inside the range. -/
theorem getAvailableSlots_sound_witness :
    5 ≤ (SlotInfo.mk 5 900 30 1 "山田").date ∧
      (SlotInfo.mk 5 900 30 1 "山田").date ≤ 5 ∧
      0 < (SlotInfo.mk 5 900 30 1 "山田").duration_min ∧
      (SlotInfo.mk 5 900 30 1 "山田").stock = 1 :=
  getAvailableSlots_sound
    (fun _ => ⟨[⟨"1", "山田"⟩], [], [], [⟨some 5, some 900, some 930, some "1"⟩]⟩)
    5 5 (SlotInfo.mk 5 900 30 1 "山田") (by decide)

/-- C10: when `dateFrom` is strictly after `dateTo` the chunked fetch loop
performs zero iterations, so no window is rendered and no slot emitted. -/
theorem getAvailableSlots_empty_range :
    ∀ (render : Nat → ViewData) (dateFrom dateTo : Nat), dateTo < dateFrom →
    getAvailableSlots render dateFrom dateTo = [] := by
  intro render dateFrom dateTo h
  unfold getAvailableSlots
  have hz : dateTo + 1 - dateFrom = 0 := by omega
  rw [hz]
  rfl

/-- Witness for C10: an inverted range yields the empty slot list. -/
theorem getAvailableSlots_empty_range_witness :
    getAvailableSlots (fun _ => ⟨[], [], [], []⟩) 7 3 = [] :=
  getAvailableSlots_empty_range (fun _ => ⟨[], [], [], []⟩) 7 3 (by decide)

/-- A create result always carries the request's id and the `create` tag. -/
lemma createReservation_fields (env : CreateEnv) (req : ReservationRequest) :
    (createReservation env req).reservation_id = req.reservation_id ∧
    (createReservation env req).operation = Operation.create := by
  cases env with
  | throws msg => exact ⟨rfl, rfl⟩
  | responds resp foundId =>
    dsimp only [createReservation]
    split
    · exact ⟨rfl, rfl⟩
    · exact ⟨rfl, rfl⟩

/-- A cancel result always carries the request's id and the `cancel` tag. -/
lemma cancelReservation_fields (env : MutEnv) (req : ReservationRequest) :
    (cancelReservation env req).reservation_id = req.reservation_id ∧
    (cancelReservation env req).operation = Operation.cancel := by
  cases env with
  | throws msg => exact ⟨rfl, rfl⟩
  | proceed elements resp =>
    dsimp only [cancelReservation]
    cases findExistingReservation elements req with
    | none => exact ⟨rfl, rfl⟩
    | some info =>
      dsimp only
      split
      · exact ⟨rfl, rfl⟩
      · exact ⟨rfl, rfl⟩

/-- A delete result always carries the request's id and the `delete` tag. -/
lemma deleteReservation_fields (env : MutEnv) (req : ReservationRequest) :
    (deleteReservation env req).reservation_id = req.reservation_id ∧
    (deleteReservation env req).operation = Operation.delete := by
  cases env with
  | throws msg => exact ⟨rfl, rfl⟩
  | proceed elements resp =>
    dsimp only [deleteReservation]
    cases findExistingReservation elements req with
    | none => exact ⟨rfl, rfl⟩
    | some info =>
      dsimp only
      split
      · exact ⟨rfl, rfl⟩
      · exact ⟨rfl, rfl⟩

/-- C5, counterexample: a batch consisting of one `update` request yields
an empty result list (no dispatch branch handles `update`), refuting the
claim that every submitted request, for every operation in
{create, update, cancel, delete}, produces exactly one result. -/
theorem processReservations_update_dropped_cex :
    processReservations
      (fun _ => ⟨CreateEnv.throws "e", MutEnv.throws "e", MutEnv.throws "e"⟩)
      [⟨"req-1", Operation.update, "2025-12-28", "09:00", none,
        "山田 太郎", "090-1234-5678", none, none⟩] = [] ∧
    ([⟨"req-1", Operation.update, "2025-12-28", "09:00", none,
        "山田 太郎", "090-1234-5678", none, none⟩] :
      List ReservationRequest).length = 1 :=
  ⟨rfl, rfl⟩

/-- C5, amended: for a batch whose operations all lie in
{create, cancel, delete} (no `update`), exactly one result is produced per
request, pairwise in order, and the i-th result carries the i-th request's
id and operation; an `update` request instead produces no result. -/
theorem processReservations_one_result_per_request :
    ∀ (env : Nat → OpEnv) (reqs : List ReservationRequest),
    (∀ r ∈ reqs, r.operation ≠ Operation.update) →
    List.Forall₂
      (fun res req => res.reservation_id = req.reservation_id ∧
        res.operation = req.operation)
      (processReservations env reqs) reqs := by
  intro env reqs h
  unfold processReservations
  suffices H : ∀ (l : List ReservationRequest) (i : Nat),
      (∀ r ∈ l, r.operation ≠ Operation.update) →
      List.Forall₂
        (fun res req => res.reservation_id = req.reservation_id ∧
          res.operation = req.operation)
        (processLoop env i l) l from H reqs 0 h
  intro l
  induction l with
  | nil => intro i _; exact List.Forall₂.nil
  | cons req rest ih =>
    intro i hl
    have hop : req.operation ≠ Operation.update := hl req (by simp)
    have hrest : ∀ r ∈ rest, r.operation ≠ Operation.update :=
      fun r hr => hl r (by simp [hr])
    obtain ⟨rid, op, rdate, rtime, rdur, rname, rphone, rmenu, rnotes⟩ := req
    cases op with
    | update => exact absurd rfl hop
    | create =>
      exact List.Forall₂.cons
        ⟨(createReservation_fields _ _).1, (createReservation_fields _ _).2⟩
        (ih (i + 1) hrest)
    | cancel =>
      exact List.Forall₂.cons
        ⟨(cancelReservation_fields _ _).1, (cancelReservation_fields _ _).2⟩
        (ih (i + 1) hrest)
    | delete =>
      exact List.Forall₂.cons
        ⟨(deleteReservation_fields _ _).1, (deleteReservation_fields _ _).2⟩
        (ih (i + 1) hrest)

/-- Witness for amended C5: a one-element create batch produces exactly
one result, carrying the request's id and operation. -/
theorem processReservations_one_result_per_request_witness :
    List.Forall₂
      (fun (res : ReservationResult) (req : ReservationRequest) =>
        res.reservation_id = req.reservation_id ∧
        res.operation = req.operation)
      (processReservations
        (fun _ => ⟨CreateEnv.throws "boom", MutEnv.throws "boom", MutEnv.throws "boom"⟩)
        [⟨"req-1", Operation.create, "2025-12-28", "09:00", some 30,
          "山田 太郎", "090-1234-5678", none, none⟩])
      ([⟨"req-1", Operation.create, "2025-12-28", "09:00", some 30,
        "山田 太郎", "090-1234-5678", none, none⟩] : List ReservationRequest) :=
  processReservations_one_result_per_request
    (fun _ => ⟨CreateEnv.throws "boom", MutEnv.throws "boom", MutEnv.throws "boom"⟩)
    [⟨"req-1", Operation.create, "2025-12-28", "09:00", some 30,
      "山田 太郎", "090-1234-5678", none, none⟩]
    (by decide)

/-- C6: for a vendor create response with `result:false`, the classifier
yields `DUPLICATE_RESERVATION` exactly when some `err_messages` entry
contains the existing-reservation marker 「他の予約が存在」,
`SLOT_NOT_AVAILABLE` exactly when no such entry exists and the alert
message contains the out-of-working-hours marker 「勤務時間外」, and
`SYSTEM_ERROR` in every other reported-failure case; and
`createReservation` maps a `DUPLICATE_RESERVATION` code to status
`conflict` and every other failure code to `failed`. -/
theorem submitReservationForm_classification :
    ∀ (resp : RegistResponse) (foundId : String) (req : ReservationRequest),
    resp.result = false →
    (submitReservationForm resp).success = false ∧
    ((submitReservationForm resp).errorCode = some "DUPLICATE_RESERVATION" ↔
      ∃ m ∈ resp.err_messages.getD [], strIncludes m "他の予約が存在" = true) ∧
    ((submitReservationForm resp).errorCode = some "SLOT_NOT_AVAILABLE" ↔
      (¬∃ m ∈ resp.err_messages.getD [], strIncludes m "他の予約が存在" = true) ∧
      ∃ a, resp.alert_message = some a ∧ strIncludes a "勤務時間外" = true) ∧
    ((submitReservationForm resp).errorCode = some "SYSTEM_ERROR" ↔
      (¬∃ m ∈ resp.err_messages.getD [], strIncludes m "他の予約が存在" = true) ∧
      ¬∃ a, resp.alert_message = some a ∧ strIncludes a "勤務時間外" = true) ∧
    (createReservation (CreateEnv.responds resp foundId) req).status =
      (if (submitReservationForm resp).errorCode = some "DUPLICATE_RESERVATION"
        then RStatus.conflict else RStatus.failed) := by
  intro resp foundId req h
  have h0 : (!resp.result) = true := by simp [h]
  by_cases hA : ((resp.err_messages.getD []).any
      (fun msg => strIncludes msg "他の予約が存在")) = true
  · have hform : submitReservationForm resp =
        { success := false, errorCode := some "DUPLICATE_RESERVATION",
          errorMessage := some (fallbackMessage (joinComma (resp.err_messages.getD []))
            resp.alert_message "予約登録に失敗しました") } := by
      simp [submitReservationForm, h0, hA]
    have hex : ∃ m ∈ resp.err_messages.getD [], strIncludes m "他の予約が存在" = true :=
      List.any_eq_true.mp hA
    refine ⟨by rw [hform], ?_, ?_, ?_, ?_⟩
    · rw [hform]; simp [hex]
    · rw [hform]; simp [hex]
    · rw [hform]; simp [hex]
    · simp [createReservation, hform]
  · have hnex : ¬∃ m ∈ resp.err_messages.getD [], strIncludes m "他の予約が存在" = true := by
      rw [← List.any_eq_true]
      simp [hA]
    rcases halt : resp.alert_message with _ | a
    · have hform : submitReservationForm resp =
          { success := false, errorCode := some "SYSTEM_ERROR",
            errorMessage := some (fallbackMessage (joinComma (resp.err_messages.getD []))
              resp.alert_message "予約登録に失敗しました") } := by
        simp [submitReservationForm, h0, hA, halt]
      refine ⟨by rw [hform], ?_, ?_, ?_, ?_⟩
      · rw [hform]; simp [hnex]
      · rw [hform]; simp [halt]
      · rw [hform]; simp [hnex, halt]
      · simp [createReservation, hform]
    · by_cases hW : strIncludes a "勤務時間外" = true
      · have hform : submitReservationForm resp =
            { success := false, errorCode := some "SLOT_NOT_AVAILABLE",
              errorMessage := some "指定された時間帯に空きがありません" } := by
          simp [submitReservationForm, h0, hA, halt, hW]
        refine ⟨by rw [hform], ?_, ?_, ?_, ?_⟩
        · rw [hform]; simp [hnex]
        · rw [hform]; simp [hnex, halt, hW]
        · rw [hform]; simp [halt, hW]
        · simp [createReservation, hform]
      · have hform : submitReservationForm resp =
            { success := false, errorCode := some "SYSTEM_ERROR",
              errorMessage := some (fallbackMessage (joinComma (resp.err_messages.getD []))
                resp.alert_message "予約登録に失敗しました") } := by
          simp [submitReservationForm, h0, hA, halt, hW]
        refine ⟨by rw [hform], ?_, ?_, ?_, ?_⟩
        · rw [hform]; simp [hnex]
        · rw [hform]; simp [halt, hW]
        · rw [hform]; simp [hnex, halt, hW]
        · simp [createReservation, hform]

/-- Witness for C6: a duplicate-marker response is classified
`DUPLICATE_RESERVATION` and the create result has status `conflict`. -/
theorem submitReservationForm_classification_witness :
    (submitReservationForm ⟨false, some ["既に他の予約が存在します"], none⟩).errorCode =
      some "DUPLICATE_RESERVATION" ∧
    (createReservation
      (CreateEnv.responds ⟨false, some ["既に他の予約が存在します"], none⟩ "99")
      ⟨"req-1", Operation.create, "2025-12-28", "09:00", some 30,
        "山田 太郎", "090-1234-5678", none, none⟩).status = RStatus.conflict := by
  have h := submitReservationForm_classification
    ⟨false, some ["既に他の予約が存在します"], none⟩ "99"
    ⟨"req-1", Operation.create, "2025-12-28", "09:00", some 30,
      "山田 太郎", "090-1234-5678", none, none⟩ rfl
  have hdup : (submitReservationForm
      ⟨false, some ["既に他の予約が存在します"], none⟩).errorCode =
      some "DUPLICATE_RESERVATION" := h.2.1.mpr (by decide)
  exact ⟨hdup, by rw [h.2.2.2.2, if_pos hdup]⟩

/-- `find?` skips a left part none of whose elements satisfy the predicate. -/
lemma find?_append_left_none {α : Type} (p : α → Bool) :
    ∀ (l₁ : List α), (∀ x ∈ l₁, p x = false) →
    ∀ (l₂ : List α), (l₁ ++ l₂).find? p = l₂.find? p := by
  intro l₁
  induction l₁ with
  | nil => intro _ l₂; rfl
  | cons a l ih =>
    intro h l₂
    have ha : ¬p a = true := by simp [h a (by simp)]
    rw [List.cons_append, List.find?_cons_of_neg _ ha]
    exact ih (fun x hx => h x (by simp [hx])) l₂

/-- C7: a cancel or delete request whose `(date, start)` key matches no
element, or only elements failing the normalized name+phone label test,
yields a failed result with `RESERVATION_NOT_FOUND` (the flow returns
before `openEditForm`, so no edit popup is opened); and when a matching
element exists, the first match in scan order is the one resolved. -/
theorem findExistingReservation_spec :
    ∀ (elements : List ReserveElement) (resp : MutResponse)
      (req : ReservationRequest),
    ((∀ el ∈ elements, keyMatches req el = true → customerMatches req el = false) →
      findExistingReservation elements req = none ∧
      cancelReservation (MutEnv.proceed elements resp) req =
        notFoundResult req Operation.cancel ∧
      deleteReservation (MutEnv.proceed elements resp) req =
        notFoundResult req Operation.delete) ∧
    (∀ (l₁ : List ReserveElement) (el : ReserveElement) (l₂ : List ReserveElement),
      elements = l₁ ++ el :: l₂ →
      keyMatches req el = true → customerMatches req el = true →
      (∀ p ∈ l₁, keyMatches req p = true → customerMatches req p = false) →
      findExistingReservation elements req = some (foundInfoOf req el)) := by
  intro elements resp req
  constructor
  · intro h
    have hfind : (elements.filter (keyMatches req)).find? (customerMatches req) = none := by
      rw [List.find?_eq_none]
      intro x hx
      rcases List.mem_filter.mp hx with ⟨hmem, hkey⟩
      simp [h x hmem hkey]
    have hnone : findExistingReservation elements req = none := by
      simp [findExistingReservation, hfind]
    refine ⟨hnone, ?_, ?_⟩
    · simp [cancelReservation, hnone]
    · simp [deleteReservation, hnone]
  · intro l₁ el l₂ helems hkey hcust hleft
    subst helems
    have hfilter : (l₁ ++ el :: l₂).filter (keyMatches req) =
        l₁.filter (keyMatches req) ++ (el :: l₂.filter (keyMatches req)) := by
      rw [List.filter_append, List.filter_cons_of_pos hkey]
    have hleft2 : ∀ x ∈ l₁.filter (keyMatches req), customerMatches req x = false := by
      intro x hx
      rcases List.mem_filter.mp hx with ⟨hmem, hk⟩
      exact hleft x hmem hk
    have hfind : ((l₁ ++ el :: l₂).filter (keyMatches req)).find?
        (customerMatches req) = some el := by
      rw [hfilter, find?_append_left_none _ _ hleft2,
        List.find?_cons_of_pos _ hcust]
    unfold findExistingReservation
    rw [hfind]
    rfl

/-- Witness for C7: with no elements the cancel returns the not-found
result, and with one matching element the lookup resolves it. -/
theorem findExistingReservation_spec_witness :
    cancelReservation
      (MutEnv.proceed [] ⟨true, none⟩)
      ⟨"req-1", Operation.cancel, "2025-12-28", "09:00", none,
        "山田 太郎", "090-1234-5678", none, none⟩ =
      notFoundResult
        ⟨"req-1", Operation.cancel, "2025-12-28", "09:00", none,
          "山田 太郎", "090-1234-5678", none, none⟩ Operation.cancel ∧
    findExistingReservation
      [⟨"20251228", "0900", "院内予約 / 山田太郎 / 09012345678", "55", "1", "1", "1"⟩]
      ⟨"req-1", Operation.cancel, "2025-12-28", "09:00", none,
        "山田 太郎", "090-1234-5678", none, none⟩ =
      some (foundInfoOf
        ⟨"req-1", Operation.cancel, "2025-12-28", "09:00", none,
          "山田 太郎", "090-1234-5678", none, none⟩
        ⟨"20251228", "0900", "院内予約 / 山田太郎 / 09012345678", "55", "1", "1", "1"⟩) :=
  ⟨((findExistingReservation_spec [] ⟨true, none⟩
      ⟨"req-1", Operation.cancel, "2025-12-28", "09:00", none,
        "山田 太郎", "090-1234-5678", none, none⟩).1 (by decide)).2.1,
   (findExistingReservation_spec
      [⟨"20251228", "0900", "院内予約 / 山田太郎 / 09012345678", "55", "1", "1", "1"⟩]
      ⟨true, none⟩
      ⟨"req-1", Operation.cancel, "2025-12-28", "09:00", none,
        "山田 太郎", "090-1234-5678", none, none⟩).2
      [] ⟨"20251228", "0900", "院内予約 / 山田太郎 / 09012345678", "55", "1", "1", "1"⟩ []
      rfl (by decide) (by decide) (by decide)⟩

/-- C8: `submitCancelForm` selects the no-contact reason exactly for a
same-day reservation, and the contacted reason for any other reservation
date — in particular for every future-dated one. -/
theorem selectCancelReason_spec :
    ∀ (reservationDate today : String),
    (reservationDate = today →
      selectCancelReason reservationDate today = CancelReason.noContact) ∧
    (reservationDate ≠ today →
      selectCancelReason reservationDate today = CancelReason.contact) := by
  intro d t
  constructor
  · intro h
    simp [selectCancelReason, h]
  · intro h
    simp [selectCancelReason, h]

/-- Witness for C8: a same-day date picks no-contact, a future date picks
contacted. -/
theorem selectCancelReason_spec_witness :
    selectCancelReason "20251228" "20251228" = CancelReason.noContact ∧
    selectCancelReason "20251229" "20251228" = CancelReason.contact :=
  ⟨(selectCancelReason_spec "20251228" "20251228").1 rfl,
   (selectCancelReason_spec "20251229" "20251228").2 (by decide)⟩

/-- The fuel bound on `fetchChunks` is not observable: any two fuels at
least `endDate + 1 - currentDate` produce the same slots, so the fuelled
loop agrees with the source's unbounded `while` loop. -/
lemma fetchChunks_fuel_congr {render : Nat → ViewData} {endDate : Nat} :
    ∀ (fuelA fuelB currentDate : Nat),
    endDate + 1 - currentDate ≤ fuelA → endDate + 1 - currentDate ≤ fuelB →
    fetchChunks render endDate fuelA currentDate =
      fetchChunks render endDate fuelB currentDate := by
  intro fuelA
  induction fuelA with
  | zero =>
    intro fuelB currentDate hA hB
    have hgt : ¬currentDate ≤ endDate := by omega
    cases fuelB with
    | zero => rfl
    | succ g => simp [fetchChunks, hgt]
  | succ f ih =>
    intro fuelB currentDate hA hB
    cases fuelB with
    | zero =>
      have hgt : ¬currentDate ≤ endDate := by omega
      simp [fetchChunks, hgt]
    | succ g =>
      by_cases hc : currentDate ≤ endDate
      · simp only [fetchChunks, hc, if_true]
        rw [ih g (currentDate + FETCH_DAYS) (by simp [FETCH_DAYS]; omega)
          (by simp [FETCH_DAYS]; omega)]
      · simp only [fetchChunks, hc, if_false]
